import Mathlib

/-!
Shallow embedding of the InventoryTracker repository.

The Product Catalog is `InventoryManager` (src/inventory/inventory_manager.py),
backed by the `products` table (src/inventory/database.py, class `DBProduct`);
the User Directory is `UserManager` (src/inventory/user_manager.py), backed by
the `users` table (class `DBUser`).  A table is modelled as a list of rows in
insertion order; `db.query(M).filter(M.key == k).first()` is `List.find?`;
`db.add` appends a row; `db.delete` erases the found row; a raised exception is
an `Except.error` and, since every raise happens before `db.commit()`, leaves
the store unchanged.

Python `float` prices are modelled as `ℚ` and Python `int` quantities as `ℤ`
(Python integers are unbounded, and the code stores whatever integer it is
given).  `str.strip()` is embedded as `strip` below (defined on the character list so that it evaluates by `decide`).

Error taxonomy of the spec, mapped to the raise sites of the code:
`duplicateKey` is the `ValueError` of an existing key, `invalidArgument` the
`ValueError` of a failed validation, `notFound` the `KeyError` of a missing key.
-/

set_option autoImplicit false

namespace InventoryTracker

/-- Errors a catalog or directory operation can signal. -/
inductive InvError where
  | duplicateKey
  | invalidArgument
  | notFound
deriving DecidableEq, Repr

/-- Row of the `products` table (class `DBProduct` in database.py); the
bookkeeping columns `id`, `created_at`, `updated_at` play no role in any
claim and are omitted. -/
structure DBProduct where
  name : String
  price : ℚ
  quantity : ℤ
deriving DecidableEq, Repr

/-- The products table, rows in insertion order. -/
abbrev Catalog := List DBProduct

/-- Embedding of Python `str.strip()`: drop leading and trailing whitespace
characters from the character list of the string. -/
def strip (s : String) : String :=
  ⟨((s.data.dropWhile Char.isWhitespace).reverse.dropWhile Char.isWhitespace).reverse⟩

/-- Embedding of `db.query(DBProduct).filter(DBProduct.name == n).first()`. -/
def findProduct (c : Catalog) (n : String) : Option DBProduct :=
  c.find? (fun p => p.name == n)

/-- Embedding of `InventoryManager.add_product` (inventory_manager.py:23-48):
look up the trimmed name; if a row exists raise `ValueError` (duplicate);
otherwise insert a row with the trimmed name and the given price and quantity.
No validation of price, quantity or name emptiness is performed. -/
def add_product (c : Catalog) (name : String) (price : ℚ) (quantity : ℤ) :
    Except InvError Catalog :=
  match findProduct c (strip name) with
  | some _ => .error .duplicateKey
  | none => .ok (c ++ [⟨(strip name), price, quantity⟩])

/-- Embedding of `InventoryManager.remove_product` (inventory_manager.py:50-66):
look up the trimmed name; `KeyError` if absent, else delete the found row. -/
def remove_product (c : Catalog) (name : String) : Except InvError Catalog :=
  match findProduct c (strip name) with
  | none => .error .notFound
  | some _ => .ok (c.eraseP (fun p => p.name == (strip name)))

/-- Overwrite the quantity of the first row with the given (already trimmed)
name, as `product.quantity = new_quantity` does on the row `first()` returned. -/
def setQuantityFirst : Catalog → String → ℤ → Catalog
  | [], _, _ => []
  | p :: ps, n, q =>
      if p.name == n then ⟨p.name, p.price, q⟩ :: ps
      else p :: setQuantityFirst ps n q

/-- Embedding of `InventoryManager.update_quantity` (inventory_manager.py:68-89):
first `ValueError` if the new quantity is negative, then look up the trimmed
name, `KeyError` if absent, else overwrite the quantity of the found row. -/
def update_quantity (c : Catalog) (name : String) (new_quantity : ℤ) :
    Except InvError Catalog :=
  if new_quantity < 0 then .error .invalidArgument
  else
    match findProduct c (strip name) with
    | none => .error .notFound
    | some _ => .ok (setQuantityFirst c (strip name) new_quantity)

/-- The dictionary `retrieve_product_info` returns for a present product. -/
structure ProductInfo where
  name : String
  price : ℚ
  quantity : ℤ
  total_value : ℚ
deriving DecidableEq, Repr

/-- Embedding of `InventoryManager.retrieve_product_info`
(inventory_manager.py:91-111): look up the trimmed name; `None` if absent, else
the stored fields plus the computed `total_value = price * quantity`. -/
def retrieve_product_info (c : Catalog) (name : String) : Option ProductInfo :=
  match findProduct c (strip name) with
  | none => none
  | some p => some ⟨p.name, p.price, p.quantity, p.price * (p.quantity : ℚ)⟩

/-- Embedding of `InventoryManager.get_total_inventory_value`
(inventory_manager.py:113-122): Python `sum(p.price * p.quantity for p in rows)`
is a left fold with start value 0. -/
def get_total_inventory_value (c : Catalog) : ℚ :=
  c.foldl (fun acc p => acc + p.price * (p.quantity : ℚ)) 0

/-- Embedding of the validation in `Product.__post_init__` (product.py:23-32):
raise `ValueError` when the trimmed name is empty, the price is negative or the
quantity is negative; otherwise keep the fields with the name trimmed.  The
repository's test `test_mocked_product_creation` asserts that `add_product`
constructs a `Product` with exactly its three arguments, which would run this
validation. -/
def productValidate (name : String) (price : ℚ) (quantity : ℤ) :
    Except InvError DBProduct :=
  if (strip name) = "" then .error .invalidArgument
  else if price < 0 then .error .invalidArgument
  else if quantity < 0 then .error .invalidArgument
  else .ok ⟨(strip name), price, quantity⟩

/-- State of the store after a call: raised exceptions happen before
`db.commit()`, so an error leaves the table as it was. -/
def stateAfter (c : Catalog) (r : Except InvError Catalog) : Catalog :=
  match r with
  | .ok c2 => c2
  | .error _ => c

/-- User roles (class `UserRole` in user.py). -/
inductive UserRole where
  | admin
  | partner
deriving DecidableEq, Repr

/-- Row of the `users` table (class `DBUser` in database.py); `is_active` is an
integer column, written 1 at creation; `id` and `created_at` are omitted. -/
structure DBUser where
  username : String
  password_hash : String
  role : UserRole
  is_active : ℤ
deriving DecidableEq, Repr

/-- The users table, rows in insertion order. -/
abbrev Directory := List DBUser

/-- The dataclass `User` (user.py) that `authenticate_user` returns. -/
structure User where
  username : String
  password_hash : String
  role : UserRole
  is_active : Bool
deriving DecidableEq, Repr

/-- Embedding of `db.query(DBUser).filter(DBUser.username == n).first()`. -/
def findUser (d : Directory) (n : String) : Option DBUser :=
  d.find? (fun u => u.username == n)

/-- Conversion of a row to the returned `User`, with `bool(db_user.is_active)`. -/
def toUser (u : DBUser) : User :=
  ⟨u.username, u.password_hash, u.role, u.is_active != 0⟩

/-- Embedding of `UserManager.authenticate_user` (user_manager.py:64-84).
`check` stands for werkzeug's `check_password_hash` (an external library
primitive, out of scope per the spec): `check h p` holds when password `p`
hashes to the stored hash `h`.  The code returns the user exactly when the row
exists and the password checks; it never consults `is_active`. -/
def authenticate_user (check : String → String → Bool)
    (d : Directory) (username password : String) : Option User :=
  match findUser d username with
  | some u => if check u.password_hash password then some (toUser u) else none
  | none => none

/-- Embedding of `UserManager.__init__` (user_manager.py:24-37). `gen` stands
for werkzeug's `generate_password_hash`.  If no row named `admin` exists, one
is inserted with the hash of the fixed default password, role admin and
`is_active = 1`; otherwise nothing changes. -/
def userManagerInit (gen : String → String) (d : Directory) : Directory :=
  match findUser d "admin" with
  | some _ => d
  | none => d ++ [⟨"admin", gen "admin123", UserRole.admin, 1⟩]


/-! ### Helper lemmas -/

/-- A left fold accumulating additions equals the starting value plus the sum
of the mapped list. -/
theorem foldl_add_eq_add_sum {α : Type} (f : α → ℚ) (l : List α) (a : ℚ) :
    l.foldl (fun acc x => acc + f x) a = a + (l.map f).sum := by
  induction l generalizing a with
  | nil => simp
  | cons x xs ih => simp [ih, add_assoc]

/-- Concrete password checker used in closed instances: the stored hash is the
password itself. -/
def idCheck : String → String → Bool := fun h p => h == p

/-! ### Claims -/

/-- C1: the claim says `add(name, price, quantity)` fails with
`InvalidArgument` when the price is negative, the quantity is negative or the
name is empty after trimming, and that no record is created.  The code of
`InventoryManager.add_product` performs none of these checks: all three calls
of the claim succeed and store the invalid record.  The validation lives in
`Product.__post_init__`, which the repository's own test
`test_mocked_product_creation` asserts `add_product` invokes, but the code
never constructs a `Product`.  This theorem evaluates both at the claim's
inputs. -/
theorem C1_add_product_performs_no_validation :
    add_product [] "" 1 1 = .ok [⟨"", 1, 1⟩] ∧
    add_product [] "x" (-1) 1 = .ok [⟨"x", -1, 1⟩] ∧
    add_product [] "x" 1 (-1) = .ok [⟨"x", 1, -1⟩] ∧
    productValidate "" 1 1 = .error .invalidArgument ∧
    productValidate "x" (-1) 1 = .error .invalidArgument ∧
    productValidate "x" 1 (-1) = .error .invalidArgument :=
  ⟨rfl, rfl, rfl, rfl, rfl, rfl⟩

/-- C2 counterexample: a directory whose only row has `is_active = 0` still
authenticates with the correct password, so `authenticate_user` does not
require the account to be active, contrary to the claim. -/
theorem C2_inactive_account_authenticates :
    (⟨"bob", "pw", UserRole.partner, 0⟩ : DBUser).is_active = 0 ∧
    authenticate_user idCheck [⟨"bob", "pw", UserRole.partner, 0⟩] "bob" "pw" =
      some ⟨"bob", "pw", UserRole.partner, false⟩ :=
  ⟨rfl, rfl⟩

/-- C2 amended: `authenticate_user` returns a user exactly when the username
is found and the supplied password checks against the stored hash; the stored
`is_active` flag is not consulted. -/
theorem C2_authenticate_user_ignores_is_active (check : String → String → Bool)
    (d : Directory) (username password : String) (u : User) :
    authenticate_user check d username password = some u ↔
      ∃ du, findUser d username = some du ∧
        check du.password_hash password = true ∧ u = toUser du := by
  cases h : findUser d username with
  | none => simp [authenticate_user, h]
  | some du =>
    by_cases hc : check du.password_hash password
    · simp [authenticate_user, h, hc]
      exact eq_comm
    · simp [authenticate_user, h, hc]

/-- C2 amended, closed instance. -/
theorem C2_amended_witness :
    authenticate_user idCheck [⟨"bob", "pw", UserRole.partner, 0⟩] "bob" "pw" =
      some (toUser ⟨"bob", "pw", UserRole.partner, 0⟩) :=
  (C2_authenticate_user_ignores_is_active idCheck
    [⟨"bob", "pw", UserRole.partner, 0⟩] "bob" "pw"
    (toUser ⟨"bob", "pw", UserRole.partner, 0⟩)).mpr
    ⟨⟨"bob", "pw", UserRole.partner, 0⟩, rfl, rfl, rfl⟩

/-- C3: for a valid input whose trimmed name is absent, `add_product` succeeds
by appending the row with the trimmed name and the given price and quantity,
and `retrieve_product_info` on the same name then returns exactly those
fields. -/
theorem C3_add_then_get (c : Catalog) (name : String) (price : ℚ) (quantity : ℤ)
    (hname : strip name ≠ "") (hp : 0 ≤ price) (hq : 0 ≤ quantity)
    (habs : findProduct c (strip name) = none) :
    add_product c name price quantity =
      .ok (c ++ [⟨strip name, price, quantity⟩]) ∧
    retrieve_product_info (c ++ [⟨strip name, price, quantity⟩]) name =
      some ⟨strip name, price, quantity, price * (quantity : ℚ)⟩ := by
  have hfind : findProduct (c ++ [⟨strip name, price, quantity⟩]) (strip name) =
      some ⟨strip name, price, quantity⟩ := by
    unfold findProduct at habs ⊢
    rw [List.find?_append, habs]
    simp
  constructor
  · simp [add_product, habs]
  · simp [retrieve_product_info, hfind]

/-- C3, closed instance. -/
theorem C3_witness :
    add_product [] " x " 2 3 = .ok ([] ++ [⟨strip " x ", 2, 3⟩]) ∧
    retrieve_product_info ([] ++ [⟨strip " x ", 2, 3⟩]) " x " =
      some ⟨strip " x ", 2, 3, 2 * ((3 : ℤ) : ℚ)⟩ :=
  C3_add_then_get [] " x " 2 3 (by decide) (by norm_num) (by decide) rfl

/-- C4: when some stored row's name equals the trimmed argument, `add_product`
fails with the duplicate-key error whatever price and quantity are passed, and
the table is unchanged. -/
theorem C4_add_duplicate_name_fails (c : Catalog) (p : DBProduct) (name : String)
    (price : ℚ) (quantity : ℤ) (hmem : p ∈ c) (hname : p.name = strip name) :
    add_product c name price quantity = .error .duplicateKey ∧
    stateAfter c (add_product c name price quantity) = c := by
  have hfind : (findProduct c (strip name)).isSome := by
    unfold findProduct
    rw [List.find?_isSome]
    exact ⟨p, hmem, by simp [hname]⟩
  rcases ho : findProduct c (strip name) with _ | q
  · rw [ho] at hfind; simp at hfind
  · constructor <;> simp [add_product, stateAfter, ho]

/-- C4, closed instance. -/
theorem C4_witness :
    add_product [⟨"x", 2, 3⟩] " x " 5 7 = .error .duplicateKey ∧
    stateAfter [⟨"x", 2, 3⟩] (add_product [⟨"x", 2, 3⟩] " x " 5 7) =
      [⟨"x", 2, 3⟩] :=
  C4_add_duplicate_name_fails [⟨"x", 2, 3⟩] ⟨"x", 2, 3⟩ " x " 5 7
    (by simp) (by decide)

/-- C5: for a product present in the catalog, updating its quantity to a
negative value fails with the invalid-argument error and leaves the table, in
particular the stored quantity, unchanged. -/
theorem C5_update_negative_quantity_fails (c : Catalog) (p : DBProduct)
    (name : String) (n : ℤ) (hmem : p ∈ c) (hname : p.name = strip name)
    (hn : n < 0) :
    update_quantity c name n = .error .invalidArgument ∧
    stateAfter c (update_quantity c name n) = c := by
  have h1 : update_quantity c name n = .error .invalidArgument := by
    unfold update_quantity
    rw [if_pos hn]
  exact ⟨h1, by rw [h1]; rfl⟩

/-- C5, closed instance. -/
theorem C5_witness :
    update_quantity [⟨"x", 2, 3⟩] "x" (-1) = .error .invalidArgument ∧
    stateAfter [⟨"x", 2, 3⟩] (update_quantity [⟨"x", 2, 3⟩] "x" (-1)) =
      [⟨"x", 2, 3⟩] :=
  C5_update_negative_quantity_fails [⟨"x", 2, 3⟩] ⟨"x", 2, 3⟩ "x" (-1)
    (by simp) (by decide) (by decide)

/-- C6: `get_total_inventory_value` is the sum of price times quantity over
all rows, it is 0 on the empty catalog, and on the catalog of the spec's
example it is 114.95. -/
theorem C6_total_value_is_sum (c : Catalog) :
    get_total_inventory_value c =
      (c.map (fun p => p.price * (p.quantity : ℚ))).sum ∧
    get_total_inventory_value [] = 0 ∧
    get_total_inventory_value [⟨"A", 1099/100, 5⟩, ⟨"B", 20, 3⟩] =
      11495/100 := by
  refine ⟨?_, rfl, ?_⟩
  · unfold get_total_inventory_value
    rw [foldl_add_eq_add_sum]
    simp
  · simp [get_total_inventory_value]
    norm_num

/-- C7: initializing the user manager on a directory with no row named
`admin` yields a directory with exactly one row named `admin`, found with role
admin, active, and the hash of the fixed default password; initializing when
an `admin` row exists changes nothing. -/
theorem C7_init_seeds_single_admin (gen : String → String) (d : Directory)
    (habs : findUser d "admin" = none) :
    (userManagerInit gen d).countP (fun u => u.username == "admin") = 1 ∧
    findUser (userManagerInit gen d) "admin" =
      some ⟨"admin", gen "admin123", UserRole.admin, 1⟩ ∧
    (∀ d2, (findUser d2 "admin").isSome → userManagerInit gen d2 = d2) := by
  have habs2 : d.find? (fun u => u.username == "admin") = none := habs
  have hnone : ∀ u ∈ d, ¬((u.username == "admin") = true) :=
    List.find?_eq_none.mp habs2
  have hstep : userManagerInit gen d =
      d ++ [⟨"admin", gen "admin123", UserRole.admin, 1⟩] := by
    unfold userManagerInit
    rw [habs]
  refine ⟨?_, ?_, ?_⟩
  · rw [hstep, List.countP_append]
    have h0 : d.countP (fun u => u.username == "admin") = 0 :=
      List.countP_eq_zero.mpr hnone
    rw [h0]
    rfl
  · rw [hstep]
    unfold findUser
    rw [List.find?_append, habs2]
    rfl
  · intro d2 h2
    unfold userManagerInit
    rcases ho : findUser d2 "admin" with _ | a
    · rw [ho] at h2; simp at h2
    · rfl

/-- C7, closed instance. -/
theorem C7_witness :
    (userManagerInit (fun s => s) []).countP (fun u => u.username == "admin") = 1 ∧
    findUser (userManagerInit (fun s => s) []) "admin" =
      some ⟨"admin", "admin123", UserRole.admin, 1⟩ ∧
    (∀ d2, (findUser d2 "admin").isSome → userManagerInit (fun s => s) d2 = d2) :=
  C7_init_seeds_single_admin (fun s => s) [] rfl

/-- C8: authentication yields the same observable result, `none`, when the
username is absent as when it is present but the supplied password fails the
hash check, so the result does not reveal whether the account exists. -/
theorem C8_no_match_hides_account_existence (check : String → String → Bool)
    (d : Directory) (username password : String) :
    (findUser d username = none →
      authenticate_user check d username password = none) ∧
    (∀ du, findUser d username = some du →
      check du.password_hash password = false →
      authenticate_user check d username password = none) := by
  constructor
  · intro h
    simp [authenticate_user, h]
  · intro du h hc
    simp [authenticate_user, h, hc]

/-- C8, closed instance: an unknown username and a wrong password for a known
username produce the same result. -/
theorem C8_witness :
    authenticate_user idCheck [⟨"bob", "pw", UserRole.partner, 1⟩] "alice" "pw"
      = none ∧
    authenticate_user idCheck [⟨"bob", "pw", UserRole.partner, 1⟩] "bob" "wrong"
      = none :=
  ⟨(C8_no_match_hides_account_existence idCheck
      [⟨"bob", "pw", UserRole.partner, 1⟩] "alice" "pw").1 rfl,
   (C8_no_match_hides_account_existence idCheck
      [⟨"bob", "pw", UserRole.partner, 1⟩] "bob" "wrong").2
      ⟨"bob", "pw", UserRole.partner, 1⟩ rfl rfl⟩

/-- C9: the name-keyed operations `retrieve_product_info`, `remove_product`
and `update_quantity` strip the name argument before the lookup: two arguments
with the same stripped form behave identically, and an argument whose stripped
form is a stored name finds that record. -/
theorem C9_name_lookups_strip_whitespace (c : Catalog) (s1 s2 : String) (q : ℤ)
    (htrim : strip s1 = strip s2) :
    (retrieve_product_info c s1 = retrieve_product_info c s2 ∧
     remove_product c s1 = remove_product c s2 ∧
     update_quantity c s1 q = update_quantity c s2 q) ∧
    (∀ p ∈ c, p.name = strip s1 → (retrieve_product_info c s1).isSome) := by
  constructor
  · exact ⟨by simp [retrieve_product_info, htrim],
      by simp [remove_product, htrim],
      by simp [update_quantity, htrim]⟩
  · intro p hmem hname
    have hfind : (findProduct c (strip s1)).isSome := by
      unfold findProduct
      rw [List.find?_isSome]
      exact ⟨p, hmem, by simp [hname]⟩
    unfold retrieve_product_info
    rcases ho : findProduct c (strip s1) with _ | v
    · rw [ho] at hfind; simp at hfind
    · rfl

/-- C9, closed instance. -/
theorem C9_witness :
    (retrieve_product_info [⟨"x", 2, 3⟩] " x " =
       retrieve_product_info [⟨"x", 2, 3⟩] "x" ∧
     remove_product [⟨"x", 2, 3⟩] " x " = remove_product [⟨"x", 2, 3⟩] "x" ∧
     update_quantity [⟨"x", 2, 3⟩] " x " 7 =
       update_quantity [⟨"x", 2, 3⟩] "x" 7) ∧
    (∀ p ∈ ([⟨"x", 2, 3⟩] : Catalog), p.name = strip " x " →
      (retrieve_product_info [⟨"x", 2, 3⟩] " x ").isSome) :=
  C9_name_lookups_strip_whitespace [⟨"x", 2, 3⟩] " x " "x" 7 (by decide)

/-- C10: `update_quantity` validates the quantity before the lookup, so a
negative quantity fails with the invalid-argument error even for a name absent
from the catalog — not with the not-found error — and the table is
unchanged. -/
theorem C10_negative_quantity_checked_before_lookup (c : Catalog)
    (name : String) (q : ℤ) (hq : q < 0)
    (habs : findProduct c (strip name) = none) :
    update_quantity c name q = .error .invalidArgument ∧
    update_quantity c name q ≠ .error .notFound ∧
    stateAfter c (update_quantity c name q) = c := by
  have h1 : update_quantity c name q = .error .invalidArgument := by
    unfold update_quantity
    rw [if_pos hq]
  refine ⟨h1, ?_, by rw [h1]; rfl⟩
  rw [h1]
  simp

/-- C10, closed instance. -/
theorem C10_witness :
    update_quantity [] "x" (-5) = .error .invalidArgument ∧
    update_quantity [] "x" (-5) ≠ .error .notFound ∧
    stateAfter [] (update_quantity [] "x" (-5)) = [] :=
  C10_negative_quantity_checked_before_lookup [] "x" (-5) (by decide) rfl

end InventoryTracker
